import Mathlib

/-!
Shallow embedding of `src/scripts/python/add_new_anime.py`.

The script is a linear ETL pipeline: it resolves the current anime season
from the clock, pages through a catalog API, normalises each raw record into
a flat schema (downloading artwork along the way), and writes one JSON file.

Modelling conventions:
* Python's heterogeneous JSON values that matter to the claims are modelled
  by `PyVal` (null / string / int); `pyStr` models Python's `str()`.
* A Python `dict.get(k)` that can see "key absent" vs "key mapped to null"
  is modelled with nested `Option`s or with `PyVal` so both cases exist.
* The network is an explicit oracle: `http : String → Nat` gives the HTTP
  status code returned for a URL (image downloads), and the pagination API
  is a function from (url, params) to a page.
* The system clock is an explicit `month`/`year` argument.
-/

/-- Python values that appear in the record fields relevant to the claims:
`null`, strings and integers. -/
inductive PyVal where
  | none : PyVal
  | str : String → PyVal
  | int : Int → PyVal
deriving DecidableEq, Repr

/-- Python's `str()` on a `PyVal`: `str(None) = "None"`. -/
def pyStr : PyVal → String
  | PyVal.none => "None"
  | PyVal.str s => s
  | PyVal.int n => toString n

/-- Python's `str.lower()` for ASCII strings: every character lower-cased. -/
def str_toLower (s : String) : String :=
  String.mk (s.data.map Char.toLower)

/-- Python's `str.capitalize()`: first character upper-cased, the rest
lower-cased; the empty string is unchanged. -/
def str_capitalize (s : String) : String :=
  match s.data with
  | [] => ""
  | c :: rest => String.mk (Char.toUpper c :: rest.map Char.toLower)

/-- The characters after the first `"://"` scheme separator, when present. -/
def afterScheme : List Char → Option (List Char)
  | ':' :: '/' :: '/' :: rest => some rest
  | _ :: rest => afterScheme rest
  | [] => Option.none

/-- Drop the authority part: everything before the first `'/'`. -/
def dropAuthority : List Char → List Char
  | [] => []
  | '/' :: rest => '/' :: rest
  | _ :: rest => dropAuthority rest

/-- The path component of `urllib.parse.urlparse(url)`: everything from the
first slash after the scheme-and-authority part.  A URL without a scheme
separator is taken as a bare path. -/
def urlparse_path (url : String) : String :=
  match afterScheme url.data with
  | some rest => String.mk (dropAuthority rest)
  | Option.none => url

/-- The characters after the last `'/'` (the whole list when there is no
slash). -/
def basenameChars (l : List Char) : List Char :=
  l.foldl (fun acc c => if c = '/' then [] else acc ++ [c]) []

/-- Model of `os.path.basename`: the part of a path after the last slash. -/
def basename (p : String) : String :=
  String.mk (basenameChars p.data)

/-- Model of `os.path.join(folder, filename)` for a folder with no trailing slash. -/
def os_path_join (folder fname : String) : String :=
  folder ++ "/" ++ fname

/-- Model of `download_image(url, folder)`: returns `none` for a falsy URL
(`None` ↦ `Option.none`, empty string is falsy too); otherwise issues a GET
(modelled by the status oracle `http`) and, on status 200, writes the body to
`folder/basename(urlpath)` and returns that path, else returns `none`. -/
def download_image (http : String → Nat) (url : Option String) (folder : String) :
    Option String :=
  match url with
  | Option.none => Option.none
  | some u =>
    if u = "" then Option.none
    else
      let file_path := os_path_join folder (basename (urlparse_path u))
      if http u = 200 then some file_path else Option.none

/-- Model of `str.replace("Z", "+00:00")` at the character-list level. -/
def replaceZ : List Char → List Char
  | [] => []
  | c :: rest =>
    if c = 'Z' then '+' :: '0' :: '0' :: ':' :: '0' :: '0' :: replaceZ rest
    else c :: replaceZ rest

/-- The characters before the first `'T'`; the whole list when there is no
`'T'`.  `datetime.fromisoformat` followed by `strftime("%Y-%m-%d")` keeps
exactly the date part, i.e. the part before the `T` separator. -/
def takeBeforeT : List Char → List Char
  | [] => []
  | c :: rest => if c = 'T' then [] else c :: takeBeforeT rest

/-- Model of `format_date(date_string)`: falsy input (absent or empty) gives `None`;
otherwise the `Z` suffix is rewritten to `+00:00`, the string is parsed as
ISO-8601 and reformatted as `YYYY-MM-DD`, i.e. the part before the `T`. -/
def format_date (date_string : Option String) : Option String :=
  match date_string with
  | Option.none => Option.none
  | some s =>
    if s = "" then Option.none
    else some (String.mk (takeBeforeT (replaceZ s.data)))

/-- A poster/cover image object from the API: per-size URLs and per-size
`meta.dimensions` entries (height, width).  An empty-string URL models a
falsy URL value. -/
structure ImageObj where
  urls : List (String × String)
  dims : List (String × (Nat × Nat))
deriving DecidableEq, Repr

/-- The empty dict `{}` used by `attributes.get("posterImage") or {}`. -/
def ImageObj.empty : ImageObj := { urls := [], dims := [] }

/-- One entry of `keyVisuals` / `coverImages`. -/
structure ImageDescriptor where
  height : Nat
  name : String
  url : String
  width : Nat
  localPath : String
deriving DecidableEq, Repr

/-- A raw record from the API, restricted to the fields the script reads.
`episodeCount`'s outer `Option` is key presence, the inner one JSON null
(both are seen as `None` by `attributes.get("episodeCount")`).
`mappings` values are `PyVal` so that an explicit null value is
distinguishable from an absent key.  For the other fields `Option.none`
models an absent key. -/
structure RawAnimeRecord where
  id : String
  titles : Option (List (String × String))
  startDate : Option String
  episodeCount : Option (Option Int)
  subtype : Option String
  mappings : Option (List (String × PyVal))
  season : Option String
  posterImage : Option ImageObj
  coverImage : Option ImageObj
deriving DecidableEq, Repr

/-- The flat output schema built by `extract_anime_data`. -/
structure FormattedAnimeRecord where
  id : String
  seriesID : String
  titleEnglish : String
  titleRomaji : String
  dateStart : Option String
  episodeCount : PyVal
  format : String
  idKitsu : String
  idMAL : String
  season : String
  keyVisuals : List ImageDescriptor
  coverImages : List ImageDescriptor
deriving DecidableEq, Repr

/-- The list `poster_sizes = ["tiny", "small", "medium", "large", "original"]`. -/
def poster_sizes : List String := ["tiny", "small", "medium", "large", "original"]

/-- The list `cover_sizes = ["tiny", "small", "large", "original"]`. -/
def cover_sizes : List String := ["tiny", "small", "large", "original"]

/-- The loop body for one size: if `img.get(size)` is truthy, download it and,
when the download returns a path, build the descriptor
`{height, name: "<tag>_<size>", url, width, localPath}` with the dimensions
defaulting to 0 when `meta.dimensions[size]` is absent; otherwise nothing is
appended. -/
def size_descriptor (http : String → Nat) (folder tag : String) (img : ImageObj)
    (size : String) : Option ImageDescriptor :=
  match img.urls.lookup size with
  | Option.none => Option.none
  | some url =>
    if url = "" then Option.none
    else
      match download_image http (some url) folder with
      | Option.none => Option.none
      | some local_path =>
        let d := (img.dims.lookup size).getD (0, 0)
        some { height := d.1
               name := tag ++ "_" ++ size
               url := url
               width := d.2
               localPath := local_path }

/-- The per-group loop: iterate the fixed size list in order, appending a
descriptor exactly when `size_descriptor` produces one. -/
def image_descriptors (http : String → Nat) (folder tag : String) (img : ImageObj)
    (sizes : List String) : List ImageDescriptor :=
  sizes.filterMap (size_descriptor http folder tag img)

/-- Model of `extract_anime_data(anime_data, images_folder)` with the HTTP status
oracle made explicit. -/
def extract_anime_data (http : String → Nat) (anime_data : RawAnimeRecord)
    (images_folder : String) : FormattedAnimeRecord :=
  let episode_count : PyVal :=
    match anime_data.episodeCount.join with
    | Option.none => PyVal.str "None"
    | some n => PyVal.int n
  { id := anime_data.id
    seriesID := anime_data.id
    titleEnglish := ((anime_data.titles.getD []).lookup "en").getD ""
    titleRomaji := ((anime_data.titles.getD []).lookup "en_jp").getD ""
    dateStart := format_date anime_data.startDate
    episodeCount := episode_count
    format := anime_data.subtype.getD ""
    idKitsu := anime_data.id
    idMAL := pyStr (((anime_data.mappings.getD []).lookup "myanimelist/anime").getD (PyVal.str ""))
    season := str_capitalize (anime_data.season.getD "")
    keyVisuals := image_descriptors http images_folder "poster"
      (anime_data.posterImage.getD ImageObj.empty) poster_sizes
    coverImages := image_descriptors http images_folder "cover"
      (anime_data.coverImage.getD ImageObj.empty) cover_sizes }

/-- Model of `get_current_season()` as a function of the clock's month. -/
def get_current_season (month : Nat) : String :=
  if month ∈ ([1, 2, 3] : List Nat) then "Winter"
  else if month ∈ ([4, 5, 6] : List Nat) then "Spring"
  else if month ∈ ([7, 8, 9] : List Nat) then "Summer"
  else "Fall"

/-- Model of `get_season_start_date()` as a function of the clock, returning the
`datetime(year, month, day)` triple it constructs. -/
def get_season_start_date (year month : Nat) : Nat × Nat × Nat :=
  if month ∈ ([1, 2, 3] : List Nat) then (year, 1, 1)
  else if month ∈ ([4, 5, 6] : List Nat) then (year, 4, 1)
  else if month ∈ ([7, 8, 9] : List Nat) then (year, 7, 1)
  else (year, 10, 1)

/-- Query parameters of an HTTP request, as the key/value pairs `requests`
sends (numeric values stringified). -/
def Params : Type := List (String × String)

instance : DecidableEq Params := by
  unfold Params
  infer_instance

/-- One JSON response of the paginated endpoint: its `data` array and the
optional `links.next` URL. -/
structure Page (α : Type) where
  data : List α
  next : Option String
deriving DecidableEq, Repr

/-- The `params` dict built by `fetch_simulcast_anime` for the first
request. -/
def initial_params (seasonYear : Nat) (season : String) : Params :=
  [("filter[status]", "current"),
   ("filter[seasonYear]", toString seasonYear),
   ("filter[season]", season),
   ("page[limit]", "20"),
   ("sort", "-userCount")]

/-- The `while url:` loop of `fetch_simulcast_anime`: while the URL is truthy
(present and nonempty), request the page for `(url, params)`, extend the
accumulator with its `data`, move to `links.next`, and clear the params.
`fuel` bounds the number of HTTP requests; exhausting it (a page chain longer
than the fuel) yields `Option.none`, standing for non-termination within the
bound. -/
def fetch_loop {α : Type} (api : String → Params → Page α)
    (fuel : Nat) (url : Option String) (params : Params) (acc : List α) :
    Option (List α) :=
  match url with
  | Option.none => some acc
  | some u =>
    if u = "" then some acc
    else
      match fuel with
      | 0 => Option.none
      | Nat.succ fuel2 =>
        let page := api u params
        fetch_loop api fuel2 page.next [] (acc ++ page.data)

/-- The endpoint URL used for the first request. -/
def kitsu_url : String := "https://kitsu.io/api/edge/anime"

/-- Model of `fetch_simulcast_anime()` with the API and the clock made explicit: start
at the fixed endpoint with the filter/limit/sort params (season year from
`get_season_start_date`, lower-cased season name) and an empty accumulator. -/
def fetch_simulcast_anime {α : Type} (api : String → Params → Page α)
    (year month fuel : Nat) : Option (List α) :=
  fetch_loop api fuel (some kitsu_url)
    (initial_params (get_season_start_date year month).1
      (str_toLower (get_current_season month))) []

/-- The relation `chain_ok api params pages` says the `pages` list is exactly the chain of
responses the server produces: the first URL is requested with `params`,
every later one with no parameters (`[]`), every page but the last links to
the next page's URL (a truthy one), and the last page has no next link. -/
def chain_ok {α : Type} (api : String → Params → Page α) :
    Params → List (String × Page α) → Prop
  | _, [] => True
  | params, [(u, pg)] =>
    u ≠ "" ∧ api u params = pg ∧ pg.next = Option.none
  | params, (u, pg) :: (u2, pg2) :: rest =>
    u ≠ "" ∧ api u params = pg ∧ pg.next = some u2 ∧
      chain_ok api [] ((u2, pg2) :: rest)

/-- The output filename built by `main()`: `simulcast_<season>_<year>.json` with the
lower-cased current season. -/
def main_filename (month year : Nat) : String :=
  "simulcast_" ++ str_toLower (get_current_season month) ++ "_" ++ toString year ++ ".json"

/-- The target path of `save_to_file`: the filename joined under a directory named
after the current year. -/
def save_to_file_path (year : Nat) (filename : String) : String :=
  os_path_join (toString year) filename

/-- The full path `main()` writes the JSON batch to. -/
def main_output_path (month year : Nat) : String :=
  save_to_file_path year (main_filename month year)

/-- An HTTP oracle for concrete instantiations: every download succeeds. -/
def httpW : String → Nat := fun _ => 200

/-- A concrete raw record with explicit-null mapping value and a cover image
that carries a (to-be-ignored) medium URL. -/
def recW : RawAnimeRecord :=
  { id := "42"
    titles := some [("en", "Show A")]
    startDate := some "2024-04-01T00:00:00Z"
    episodeCount := some (some 12)
    subtype := some "TV"
    mappings := some [("myanimelist/anime", PyVal.none)]
    season := some "spring"
    posterImage := some
      { urls := [("small", "http://h/p/s.jpg"), ("medium", "http://h/p/m.jpg")]
        dims := [("small", (100, 70))] }
    coverImage := some
      { urls := [("tiny", "http://h/c/t.jpg"), ("medium", "http://h/c/m.jpg")]
        dims := [] } }

/-- A concrete raw record with the optional fields absent. -/
def recW2 : RawAnimeRecord :=
  { id := "7"
    titles := Option.none
    startDate := Option.none
    episodeCount := Option.none
    subtype := Option.none
    mappings := Option.none
    season := Option.none
    posterImage := Option.none
    coverImage := Option.none }

/-- A concrete raw record whose episodeCount key maps to an explicit null. -/
def recW3 : RawAnimeRecord :=
  { recW2 with id := "8", episodeCount := some Option.none }

/-- First page served by the concrete API below. -/
def pageW1 : Page Nat := { data := [10, 20], next := some "page2" }

/-- Second and last page served by the concrete API below. -/
def pageW2 : Page Nat := { data := [30], next := Option.none }

/-- A concrete two-page API for instantiating the pagination theorem. -/
def apiW : String → Params → Page Nat :=
  fun u _ => if u = kitsu_url then pageW1 else pageW2

/-- The cover descriptor that `extract_anime_data` builds from `recW`
(whose cover object also carries a medium URL). -/
def coverTinyW : ImageDescriptor :=
  { height := 0
    name := "cover_tiny"
    url := "http://h/c/t.jpg"
    width := 0
    localPath := "imgs/t.jpg" }

/-- Cancelling a common prefix of a string equation. -/
theorem append_left_cancel_str {a b c : String} (h : a ++ b = a ++ c) : b = c := by
  apply String.ext
  have hd := congrArg String.data h
  rw [String.data_append, String.data_append] at hd
  exact List.append_cancel_left hd

/-- The year component of the season start date is the clock's year. -/
theorem get_season_start_date_fst (y m : Nat) : (get_season_start_date y m).1 = y := by
  unfold get_season_start_date
  split_ifs <;> rfl

/-- C4: for every month 1..12 the season resolver yields exactly one of the
four quarter labels with the documented month ranges, and the season start
date is the first day of the matching quarter: its year is the clock's year,
its month is in {1, 4, 7, 10} and its day is 1. -/
theorem season_resolver_total (y m : Nat) (h1 : 1 ≤ m) (h2 : m ≤ 12) :
    get_current_season m ∈ (["Winter", "Spring", "Summer", "Fall"] : List String) ∧
    (m ≤ 3 → get_current_season m = "Winter" ∧ get_season_start_date y m = (y, 1, 1)) ∧
    (4 ≤ m → m ≤ 6 → get_current_season m = "Spring" ∧ get_season_start_date y m = (y, 4, 1)) ∧
    (7 ≤ m → m ≤ 9 → get_current_season m = "Summer" ∧ get_season_start_date y m = (y, 7, 1)) ∧
    (10 ≤ m → get_current_season m = "Fall" ∧ get_season_start_date y m = (y, 10, 1)) ∧
    (get_season_start_date y m).1 = y ∧
    (get_season_start_date y m).2.1 ∈ ([1, 4, 7, 10] : List Nat) ∧
    (get_season_start_date y m).2.2 = 1 := by
  interval_cases m <;>
    simp [get_current_season, get_season_start_date]

/-- Witness for `season_resolver_total` at May 2024. -/
theorem season_resolver_total_witness :
    get_current_season 5 ∈ (["Winter", "Spring", "Summer", "Fall"] : List String) :=
  (season_resolver_total 2024 5 (by decide) (by decide)).1

/-- C6: the formatted record's `id`, `seriesID` and `idKitsu` all equal the
raw record's top-level identifier. -/
theorem record_id_invariant (http : String → Nat) (rec : RawAnimeRecord) (folder : String) :
    (extract_anime_data http rec folder).id = (extract_anime_data http rec folder).seriesID ∧
    (extract_anime_data http rec folder).seriesID = (extract_anime_data http rec folder).idKitsu ∧
    (extract_anime_data http rec folder).id = rec.id :=
  ⟨rfl, rfl, rfl⟩

/-- C8: the transformer is deterministic — two runs over the same raw record
in which every image download answers identically produce the same formatted
record. -/
theorem extract_deterministic (http1 http2 : String → Nat) (rec : RawAnimeRecord)
    (folder : String) (h : ∀ u, http1 u = http2 u) :
    extract_anime_data http1 rec folder = extract_anime_data http2 rec folder := by
  have he : http1 = http2 := funext h
  rw [he]

/-- Witness for `extract_deterministic`: two identical all-200 runs. -/
theorem extract_deterministic_witness :
    extract_anime_data httpW recW "2024/images" = extract_anime_data httpW recW "2024/images" :=
  extract_deterministic httpW httpW recW "2024/images" (fun _ => rfl)

/-- C9: in any month resolving to Spring, with year 2024, the output file is
written at `2024/simulcast_spring_2024.json`. -/
theorem spring_2024_output_path (m : Nat) (h1 : 4 ≤ m) (h2 : m ≤ 6) :
    get_current_season m = "Spring" ∧
    main_output_path m 2024 = "2024/simulcast_spring_2024.json" := by
  interval_cases m <;> exact ⟨by decide, by decide⟩

/-- Witness for `spring_2024_output_path` at May. -/
theorem spring_2024_output_path_witness :
    main_output_path 5 2024 = "2024/simulcast_spring_2024.json" :=
  (spring_2024_output_path 5 (by decide) (by decide)).2

/-- C3: an absent or null `episodeCount` becomes the literal string `"None"`
(which is neither the null value nor any number, in particular not 0), and a
present numeric `episodeCount` is passed through unchanged. -/
theorem episode_count_sentinel (http : String → Nat) (rec : RawAnimeRecord) (folder : String) :
    ((rec.episodeCount = Option.none ∨ rec.episodeCount = some Option.none) →
      (extract_anime_data http rec folder).episodeCount = PyVal.str "None" ∧
      PyVal.str "None" ≠ PyVal.none ∧ (∀ n : Int, PyVal.str "None" ≠ PyVal.int n)) ∧
    (∀ n : Int, rec.episodeCount = some (some n) →
      (extract_anime_data http rec folder).episodeCount = PyVal.int n) := by
  constructor
  · rintro (h | h) <;>
      exact ⟨by simp [extract_anime_data, h], by simp, fun n => by simp⟩
  · intro n h
    simp [extract_anime_data, h]

/-- Witness for `episode_count_sentinel`: a record with the key absent, one
with an explicit null, and one with 12 episodes. -/
theorem episode_count_sentinel_witness :
    (extract_anime_data httpW recW2 "f").episodeCount = PyVal.str "None" ∧
    (extract_anime_data httpW recW3 "f").episodeCount = PyVal.str "None" ∧
    (extract_anime_data httpW recW "f").episodeCount = PyVal.int 12 :=
  ⟨((episode_count_sentinel httpW recW2 "f").1 (Or.inl rfl)).1,
   ((episode_count_sentinel httpW recW3 "f").1 (Or.inr rfl)).1,
   (episode_count_sentinel httpW recW "f").2 12 rfl⟩

/-- C10: a `myanimelist/anime` mapping present with an explicit null value
stringifies to the four-character `"None"`, not the empty string; the empty
string arises exactly from the key being absent. -/
theorem idmal_null_stringification (http : String → Nat) (rec : RawAnimeRecord)
    (folder : String) :
    ((rec.mappings.getD []).lookup "myanimelist/anime" = some PyVal.none →
      (extract_anime_data http rec folder).idMAL = "None" ∧
      ("None" : String).length = 4 ∧ ("None" : String) ≠ "") ∧
    ((rec.mappings.getD []).lookup "myanimelist/anime" = Option.none →
      (extract_anime_data http rec folder).idMAL = "") := by
  constructor <;> intro h
  · exact ⟨by simp [extract_anime_data, h, pyStr], by decide, by decide⟩
  · simp [extract_anime_data, h, pyStr]

/-- Witness for `idmal_null_stringification`: `recW` maps the key to null,
`recW2` lacks it. -/
theorem idmal_null_stringification_witness :
    (extract_anime_data httpW recW "f").idMAL = "None" ∧
    (extract_anime_data httpW recW2 "f").idMAL = "" :=
  ⟨((idmal_null_stringification httpW recW "f").1 (by decide)).1,
   (idmal_null_stringification httpW recW2 "f").2 (by decide)⟩

/-- The function `replaceZ` leaves a Z-free prefix untouched. -/
theorem replaceZ_noZ_append (l r : List Char) (h : ∀ c ∈ l, c ≠ 'Z') :
    replaceZ (l ++ r) = l ++ replaceZ r := by
  induction l with
  | nil => rfl
  | cons c cs ih =>
    have hc : c ≠ 'Z' := h c (by simp)
    have ih2 := ih (fun x hx => h x (by simp [hx]))
    show replaceZ (c :: (cs ++ r)) = c :: (cs ++ replaceZ r)
    simp only [replaceZ, if_neg hc]
    exact congrArg (List.cons c) ih2

/-- The function `takeBeforeT` returns exactly the T-free prefix before an explicit T. -/
theorem takeBeforeT_append (l r : List Char) (h : ∀ c ∈ l, c ≠ 'T') :
    takeBeforeT (l ++ 'T' :: r) = l := by
  induction l with
  | nil => simp [takeBeforeT]
  | cons c cs ih =>
    have hc : c ≠ 'T' := h c (by simp)
    have ih2 := ih (fun x hx => h x (by simp [hx]))
    show takeBeforeT (c :: (cs ++ 'T' :: r)) = c :: cs
    simp only [takeBeforeT, if_neg hc]
    exact congrArg (List.cons c) ih2

/-- C7: `format_date` maps an absent date to null and a present ISO-8601
string with Z suffix to its date part before the `T` separator (for the
canonical example, `"2024-04-01"`); `dateStart` in the output is exactly
`format_date` of the source date, hence a date string or null. -/
theorem format_date_iso_datepart (d t : String)
    (hd : ∀ c ∈ d.data, c ≠ 'T' ∧ c ≠ 'Z') :
    format_date Option.none = Option.none ∧
    format_date (some (d ++ "T" ++ t ++ "Z")) = some d ∧
    format_date (some "2024-04-01T00:00:00Z") = some "2024-04-01" ∧
    (∀ (http : String → Nat) (rec : RawAnimeRecord) (folder : String),
      (extract_anime_data http rec folder).dateStart = format_date rec.startDate) := by
  refine ⟨rfl, ?_, by decide, fun http rec folder => rfl⟩
  have hT : ("T" : String).data = ['T'] := rfl
  have hZ : ("Z" : String).data = ['Z'] := rfl
  have hdata : (d ++ "T" ++ t ++ "Z").data = d.data ++ 'T' :: (t.data ++ ['Z']) := by
    simp [String.data_append, hT, hZ]
  have hne : (d ++ "T" ++ t ++ "Z") ≠ "" := by
    intro h0
    have h1 := congrArg String.data h0
    rw [hdata] at h1
    simp at h1
  show (if (d ++ "T" ++ t ++ "Z") = "" then Option.none
    else some (String.mk (takeBeforeT (replaceZ (d ++ "T" ++ t ++ "Z").data)))) = some d
  rw [if_neg hne, hdata]
  rw [replaceZ_noZ_append _ _ (fun c hc => (hd c hc).2)]
  have hstep : replaceZ ('T' :: (t.data ++ ['Z'])) = 'T' :: replaceZ (t.data ++ ['Z']) := by
    simp [replaceZ]
  rw [hstep, takeBeforeT_append _ _ (fun c hc => (hd c hc).1)]

/-- Witness for `format_date_iso_datepart` at the canonical example. -/
theorem format_date_iso_datepart_witness :
    format_date (some ("2024-04-01" ++ "T" ++ "00:00:00" ++ "Z")) = some "2024-04-01" :=
  (format_date_iso_datepart "2024-04-01" "00:00:00" (by decide)).2.1

/-- Full characterisation of one loop-body step: it yields a descriptor
exactly for a truthy URL whose download succeeded, and that descriptor's
fields are determined by the image object and the download path. -/
theorem size_descriptor_eq_some_iff (http : String → Nat) (folder tag : String)
    (img : ImageObj) (s : String) (d : ImageDescriptor) :
    size_descriptor http folder tag img s = some d ↔
      ∃ url, img.urls.lookup s = some url ∧ url ≠ "" ∧ http url = 200 ∧
        d = { height := ((img.dims.lookup s).getD (0, 0)).1
              name := tag ++ "_" ++ s
              url := url
              width := ((img.dims.lookup s).getD (0, 0)).2
              localPath := os_path_join folder (basename (urlparse_path url)) } := by
  unfold size_descriptor download_image
  rcases hl : img.urls.lookup s with _ | url
  · simp
  · by_cases hu : url = ""
    · simp [hu]
    · by_cases h2 : http url = 200
      · simp [hu, h2, eq_comm]
      · simp [hu, h2]

/-- A descriptor named for a given size is in the produced list iff that
size's URL is truthy in the source object and its download succeeded. -/
theorem mem_descriptors_name_iff (http : String → Nat) (folder tag : String)
    (img : ImageObj) (sizes : List String) (size : String) (hsize : size ∈ sizes) :
    (∃ d ∈ image_descriptors http folder tag img sizes, d.name = tag ++ "_" ++ size) ↔
      ∃ url, img.urls.lookup size = some url ∧ url ≠ "" ∧ http url = 200 := by
  constructor
  · rintro ⟨d, hmem, hname⟩
    rw [image_descriptors, List.mem_filterMap] at hmem
    obtain ⟨s, hs, hsd⟩ := hmem
    rw [size_descriptor_eq_some_iff] at hsd
    obtain ⟨url, h1, h2, h3, rfl⟩ := hsd
    have h4 : tag ++ "_" ++ s = tag ++ "_" ++ size := hname
    have h5 : s = size := append_left_cancel_str h4
    subst h5
    exact ⟨url, h1, h2, h3⟩
  · rintro ⟨url, h1, h2, h3⟩
    refine ⟨{ height := ((img.dims.lookup size).getD (0, 0)).1
              name := tag ++ "_" ++ size
              url := url
              width := ((img.dims.lookup size).getD (0, 0)).2
              localPath := os_path_join folder (basename (urlparse_path url)) }, ?_, rfl⟩
    rw [image_descriptors, List.mem_filterMap]
    exact ⟨size, hsize, (size_descriptor_eq_some_iff http folder tag img size _).mpr
      ⟨url, h1, h2, h3, rfl⟩⟩

/-- C1: a size-named descriptor appears in `keyVisuals`/`coverImages` iff the
size's URL is present (truthy) in the raw record and its download returned a
path (HTTP 200); and `download_image` on a truthy URL returns the written
file's path exactly when the status is 200, `None` otherwise. -/
theorem extract_image_lists_iff_download_ok (http : String → Nat) (rec : RawAnimeRecord)
    (folder size : String) :
    (size ∈ poster_sizes →
      ((∃ d ∈ (extract_anime_data http rec folder).keyVisuals, d.name = "poster_" ++ size) ↔
        ∃ url, (rec.posterImage.getD ImageObj.empty).urls.lookup size = some url ∧
          url ≠ "" ∧ http url = 200)) ∧
    (size ∈ cover_sizes →
      ((∃ d ∈ (extract_anime_data http rec folder).coverImages, d.name = "cover_" ++ size) ↔
        ∃ url, (rec.coverImage.getD ImageObj.empty).urls.lookup size = some url ∧
          url ≠ "" ∧ http url = 200)) ∧
    (∀ (url folder2 : String), url ≠ "" →
      ((download_image http (some url) folder2 =
          some (os_path_join folder2 (basename (urlparse_path url))) ↔ http url = 200) ∧
        (download_image http (some url) folder2 = Option.none ↔ ¬ http url = 200))) := by
  refine ⟨fun hs => ?_, fun hs => ?_, fun url folder2 hu => ?_⟩
  · exact mem_descriptors_name_iff http folder "poster"
      (rec.posterImage.getD ImageObj.empty) poster_sizes size hs
  · exact mem_descriptors_name_iff http folder "cover"
      (rec.coverImage.getD ImageObj.empty) cover_sizes size hs
  · unfold download_image
    by_cases h2 : http url = 200 <;> simp [hu, h2]

/-- Witness for `extract_image_lists_iff_download_ok`: `recW`'s small poster
URL is present and downloads with 200, so `poster_small` is listed. -/
theorem extract_image_lists_iff_download_ok_witness :
    ∃ d ∈ (extract_anime_data httpW recW "imgs").keyVisuals, d.name = "poster_" ++ "small" :=
  ((extract_image_lists_iff_download_ok httpW recW "imgs" "small").1 (by decide)).mpr
    ⟨"http://h/p/s.jpg", by decide, by decide, by decide⟩

/-- C5: every cover descriptor is named for one of the four cover sizes
(tiny/small/large/original), so `cover_medium` never appears, even though the
poster loop does consider `medium`. -/
theorem cover_sizes_exclude_medium (http : String → Nat) (rec : RawAnimeRecord)
    (folder : String) (d : ImageDescriptor)
    (h : d ∈ (extract_anime_data http rec folder).coverImages) :
    d.name ≠ "cover_medium" ∧
    (∃ s ∈ (["tiny", "small", "large", "original"] : List String), d.name = "cover" ++ "_" ++ s) ∧
    "medium" ∈ poster_sizes ∧ "medium" ∉ cover_sizes := by
  have h2 : d ∈ image_descriptors http folder "cover"
      (rec.coverImage.getD ImageObj.empty) cover_sizes := h
  rw [image_descriptors, List.mem_filterMap] at h2
  obtain ⟨s, hs, hsd⟩ := h2
  rw [size_descriptor_eq_some_iff] at hsd
  obtain ⟨url, h1, hne, h200, rfl⟩ := hsd
  refine ⟨?_, ⟨s, hs, rfl⟩, by decide, by decide⟩
  show ("cover" ++ "_" ++ s : String) ≠ "cover_medium"
  fin_cases hs <;> decide

/-- Witness for `cover_sizes_exclude_medium` on `recW`'s tiny cover entry. -/
theorem cover_sizes_exclude_medium_witness :
    coverTinyW.name ≠ "cover_medium" :=
  (cover_sizes_exclude_medium httpW recW "imgs" coverTinyW (by decide)).1

/-- The loop exits immediately once the next-page link is absent. -/
theorem fetch_loop_none {α : Type} (api : String → Params → Page α) (fuel : Nat)
    (params : Params) (acc : List α) :
    fetch_loop api fuel Option.none params acc = some acc := by
  cases fuel <;> rfl

/-- One truthy-URL iteration of the loop: request the page, append its data,
continue at its next link with cleared params. -/
theorem fetch_loop_step {α : Type} (api : String → Params → Page α) (fuel : Nat)
    (u : String) (hu : u ≠ "") (params : Params) (acc : List α) :
    fetch_loop api (fuel + 1) (some u) params acc =
      fetch_loop api fuel (api u params).next [] (acc ++ (api u params).data) := by
  show (if u = "" then some acc
    else fetch_loop api fuel (api u params).next [] (acc ++ (api u params).data)) =
    fetch_loop api fuel (api u params).next [] (acc ++ (api u params).data)
  rw [if_neg hu]

/-- Over a well-formed page chain the pagination loop stops at the page with
no next link and returns the accumulator extended by every page's data, in
order, for any fuel covering the chain. -/
theorem fetch_loop_chain {α : Type} (api : String → Params → Page α) :
    ∀ (rest : List (String × Page α)) (u : String) (pg : Page α)
      (params : Params) (acc : List α) (fuel : Nat),
      chain_ok api params ((u, pg) :: rest) →
      ((u, pg) :: rest).length ≤ fuel →
      fetch_loop api fuel (some u) params acc =
        some (acc ++ (((u, pg) :: rest).map (fun x => x.2.data)).flatten) := by
  intro rest
  induction rest with
  | nil =>
    intro u pg params acc fuel hc hf
    obtain ⟨hu, hapi, hnext⟩ := hc
    simp only [List.length_cons, List.length_nil] at hf
    obtain ⟨f, rfl⟩ : ∃ f, fuel = f + 1 := ⟨fuel - 1, by omega⟩
    rw [fetch_loop_step api f u hu params acc, hapi, hnext, fetch_loop_none]
    simp
  | cons hd tl ih =>
    intro u pg params acc fuel hc hf
    obtain ⟨u2, pg2⟩ := hd
    obtain ⟨hu, hapi, hnext, hrest⟩ := hc
    simp only [List.length_cons] at hf
    obtain ⟨f, rfl⟩ : ∃ f, fuel = f + 1 := ⟨fuel - 1, by omega⟩
    rw [fetch_loop_step api f u hu params acc, hapi, hnext]
    rw [ih u2 pg2 [] (acc ++ pg.data) f hrest (by simp only [List.length_cons]; omega)]
    simp

/-- C2: over any chain of pages in which the first request goes to the fixed
endpoint with the filter/limit/sort params, each later request uses the
returned next URL with no parameters, and the last page lacks a next link,
`fetch_simulcast_anime` returns the in-order concatenation of the pages'
data arrays — whose length is the sum of the per-page record counts. -/
theorem fetch_pagination_concat {α : Type} (api : String → Params → Page α)
    (year month fuel : Nat) (pg0 : Page α) (rest : List (String × Page α))
    (hc : chain_ok api
      (initial_params (get_season_start_date year month).1
        (str_toLower (get_current_season month)))
      ((kitsu_url, pg0) :: rest))
    (hf : ((kitsu_url, pg0) :: rest).length ≤ fuel) :
    fetch_simulcast_anime api year month fuel =
      some ((((kitsu_url, pg0) :: rest).map (fun x => x.2.data)).flatten) ∧
    ((((kitsu_url, pg0) :: rest).map (fun x => x.2.data)).flatten).length =
      (((kitsu_url, pg0) :: rest).map (fun x => x.2.data.length)).sum := by
  constructor
  · have h : fetch_simulcast_anime api year month fuel =
        some (([] : List α) ++ (((kitsu_url, pg0) :: rest).map (fun x => x.2.data)).flatten) :=
      fetch_loop_chain api rest kitsu_url pg0 _ [] fuel hc hf
    simpa using h
  · rw [List.length_flatten, List.map_map]
    rfl

/-- Witness for `fetch_pagination_concat` on the concrete two-page API. -/
theorem fetch_pagination_concat_witness :
    fetch_simulcast_anime apiW 2024 5 2 = some [10, 20, 30] := by
  have h := fetch_pagination_concat apiW 2024 5 2 pageW1 [("page2", pageW2)]
    ⟨by decide, by decide, by decide, by decide, by decide, by decide⟩ (by decide)
  exact h.1.trans (by decide)

/-- The end-to-end sample scenario: a record with id 42, an English title, an
April 2024 start date, 12 episodes and a medium poster URL whose download
succeeds is transformed into the expected flat record with a single
`poster_medium` key visual. -/
theorem extract_end_to_end_sample : extract_anime_data (fun _ => 200)
    { id := "42", titles := some [("en", "Show A")], startDate := some "2024-04-01T00:00:00Z",
      episodeCount := some (some 12), subtype := some "TV", mappings := Option.none,
      season := some "spring",
      posterImage := some { urls := [("medium", "http://x/img.jpg")], dims := [] },
      coverImage := Option.none } "2024/images" =
    { id := "42", seriesID := "42", titleEnglish := "Show A", titleRomaji := "",
      dateStart := some "2024-04-01", episodeCount := PyVal.int 12, format := "TV",
      idKitsu := "42", idMAL := "", season := "Spring",
      keyVisuals := [{ height := 0, name := "poster_medium", url := "http://x/img.jpg",
                       width := 0, localPath := "2024/images/img.jpg" }],
      coverImages := [] } := by decide
